import Mathlib

/-!
Shallow embedding of the uhid-example program (src/src/main.rs): a user-space
emulator of a 3-button mouse with wheel over the kernel uhid character device.
The pure data model (DeviceState, InputEvent), the event codec (fixed-size
record encodings), the write/read wrappers (uhid_write, handle_event,
handle_output), the control-input handler (keyboard) and the event loop
(event_loop_run) are translated from the source; the numeric layout constants
that live in the generated bindings (linux/uhid.h) are modelled from the
specification, as marked on each such definition.
-/

/-! ## Device state (main.rs lines 174-201) -/

structure DeviceState where
  btn1_down : Bool
  btn2_down : Bool
  btn3_down : Bool
deriving Repr, DecidableEq

def DeviceState.default : DeviceState :=
  { btn1_down := false, btn2_down := false, btn3_down := false }

def DeviceState.toggle_btn1 (s : DeviceState) : DeviceState :=
  { s with btn1_down := !s.btn1_down }

def DeviceState.toggle_btn2 (s : DeviceState) : DeviceState :=
  { s with btn2_down := !s.btn2_down }

def DeviceState.toggle_btn3 (s : DeviceState) : DeviceState :=
  { s with btn3_down := !s.btn3_down }

/-! ## Input event (main.rs lines 204-225) -/

structure InputEvent where
  btn1_down : Bool
  btn2_down : Bool
  btn3_down : Bool
  abs_hor : Int
  abs_ver : Int
  wheel : Int
deriving Repr, DecidableEq

/-- Translation of `InputEvent::from_state` (main.rs lines 215-224). The
source assigns `btn3_down: state.btn2_down` (line 219); this is kept
faithfully. -/
def InputEvent.from_state (state : DeviceState) : InputEvent :=
  { btn1_down := state.btn1_down
    btn2_down := state.btn2_down
    btn3_down := state.btn2_down
    abs_hor := 0
    abs_ver := 0
    wheel := 0 }

/-! ## Event-type tags -/

inductive uhid_event_type where
  | LEGACY_CREATE
  | UHID_DESTROY
  | UHID_START
  | UHID_STOP
  | UHID_OPEN
  | UHID_CLOSE
  | UHID_OUTPUT
  | LEGACY_OUTPUT_EV
  | LEGACY_INPUT
  | UHID_GET_REPORT
  | UHID_GET_REPORT_REPLY
  | UHID_CREATE2
  | UHID_INPUT2
  | UHID_SET_REPORT
  | UHID_SET_REPORT_REPLY
deriving Repr, DecidableEq

/-- Modelled from the spec: the numeric values of the `uhid_event_type` tag
come from the generated bindings (bindings.rs, produced from linux/uhid.h),
which are not part of the repository sources. The kinds are the ones the
spec lists in section 3 and the source names in
`from_u32_to_maybe_uhid_event_type`; the values follow the kernel header
declaration order starting at 0. -/
def uhid_event_type.toU32 : uhid_event_type → Nat
  | .LEGACY_CREATE => 0
  | .UHID_DESTROY => 1
  | .UHID_START => 2
  | .UHID_STOP => 3
  | .UHID_OPEN => 4
  | .UHID_CLOSE => 5
  | .UHID_OUTPUT => 6
  | .LEGACY_OUTPUT_EV => 7
  | .LEGACY_INPUT => 8
  | .UHID_GET_REPORT => 9
  | .UHID_GET_REPORT_REPLY => 10
  | .UHID_CREATE2 => 11
  | .UHID_INPUT2 => 12
  | .UHID_SET_REPORT => 13
  | .UHID_SET_REPORT_REPLY => 14

/-- Translation of `from_u32_to_maybe_uhid_event_type` (main.rs lines
332-366): the open-coded equality chain over all known tag values, `none`
for anything else. -/
def from_u32_to_maybe_uhid_event_type (value : Nat) : Option uhid_event_type :=
  if value = uhid_event_type.LEGACY_CREATE.toU32 then some .LEGACY_CREATE
  else if value = uhid_event_type.UHID_DESTROY.toU32 then some .UHID_DESTROY
  else if value = uhid_event_type.UHID_START.toU32 then some .UHID_START
  else if value = uhid_event_type.UHID_STOP.toU32 then some .UHID_STOP
  else if value = uhid_event_type.UHID_OPEN.toU32 then some .UHID_OPEN
  else if value = uhid_event_type.UHID_CLOSE.toU32 then some .UHID_CLOSE
  else if value = uhid_event_type.UHID_OUTPUT.toU32 then some .UHID_OUTPUT
  else if value = uhid_event_type.LEGACY_OUTPUT_EV.toU32 then some .LEGACY_OUTPUT_EV
  else if value = uhid_event_type.LEGACY_INPUT.toU32 then some .LEGACY_INPUT
  else if value = uhid_event_type.UHID_GET_REPORT.toU32 then some .UHID_GET_REPORT
  else if value = uhid_event_type.UHID_GET_REPORT_REPLY.toU32 then some .UHID_GET_REPORT_REPLY
  else if value = uhid_event_type.UHID_CREATE2.toU32 then some .UHID_CREATE2
  else if value = uhid_event_type.UHID_INPUT2.toU32 then some .UHID_INPUT2
  else if value = uhid_event_type.UHID_SET_REPORT.toU32 then some .UHID_SET_REPORT
  else if value = uhid_event_type.UHID_SET_REPORT_REPLY.toU32 then some .UHID_SET_REPORT_REPLY
  else none

/-! ## Record layout constants and byte-level encodings -/

/-- Modelled from the spec: the data buffer capacity of the input/output
payloads (the 4096-byte buffers of section 6); the constant lives in the
generated bindings, not in the repository sources. -/
def UHID_DATA_MAX : Nat := 4096

/-- Modelled from the spec: size of the largest payload variant, per the
section 6 wire format of the CREATE payload — 128-byte name, 64-byte serial,
64-byte physical-location string, 2-byte descriptor length, 4096-byte
descriptor buffer, 4-byte bus, 2-byte vendor, 2-byte product, 4-byte
version, 4-byte country. The concrete struct comes from the generated
bindings, which are not in the repository sources. -/
def PAYLOAD_SIZE : Nat := 128 + 64 + 64 + 2 + 4096 + 4 + 2 + 2 + 4 + 4

/-- Modelled from the spec: constant record length, header (4-byte kind tag)
plus the largest payload variant (section 6). This is `mem::size_of::<uhid_event>()`
of the source. -/
def EVENT_SIZE : Nat := 4 + PAYLOAD_SIZE

/-- `uhid_event_size` of `uhid_write` (main.rs line 229). -/
def uhid_event_size : Nat := EVENT_SIZE

/-- Native-byte-order serialization of a 32-bit field (spec section 4.1:
fixed-width integers in the host byte order; the host is little-endian). -/
def u32_bytes (v : Nat) : List Nat :=
  [v % 256, v / 256 % 256, v / 65536 % 256, v / 16777216 % 256]

/-- Native-byte-order serialization of a 16-bit field. -/
def u16_bytes (v : Nat) : List Nat :=
  [v % 256, v / 256 % 256]

/-- The byte a signed 8-bit value occupies in the data buffer
(`input.abs_hor as u8` of main.rs lines 386-388). -/
def i8_as_u8 (x : Int) : Nat := (x % 256).toNat

/-- A fixed-capacity field: the value truncated to the capacity and padded
with zero bytes up to it, as `mem::zeroed` plus a field store produces. -/
def pad_to (n : Nat) (l : List Nat) : List Nat :=
  l.take n ++ List.replicate (n - l.length) 0

/-- The HID report descriptor `RDESC` (main.rs lines 125-170), 85 bytes. -/
def RDESC : List Nat :=
  [0x05, 0x01, 0x09, 0x02, 0xa1, 0x01, 0x09, 0x01, 0xa1, 0x00,
   0x85, 0x01, 0x05, 0x09, 0x19, 0x01, 0x29, 0x03, 0x15, 0x00,
   0x25, 0x01, 0x95, 0x03, 0x75, 0x01, 0x81, 0x02, 0x95, 0x01,
   0x75, 0x05, 0x81, 0x01, 0x05, 0x01, 0x09, 0x30, 0x09, 0x31,
   0x09, 0x38, 0x15, 0x81, 0x25, 0x7f, 0x75, 0x08, 0x95, 0x03,
   0x81, 0x06, 0xc0, 0xc0, 0x05, 0x01, 0x09, 0x06, 0xa1, 0x01,
   0x85, 0x02, 0x05, 0x08, 0x19, 0x01, 0x29, 0x03, 0x15, 0x00,
   0x25, 0x01, 0x95, 0x03, 0x75, 0x01, 0x91, 0x02, 0x95, 0x01,
   0x75, 0x05, 0x91, 0x01, 0xc0]

/-- The device name bytes written by `create` (main.rs line 256): the
C string of "test-uhid-device" with its terminating null. -/
def device_name_bytes : List Nat :=
  ("test-uhid-device".toList.map Char.toNat) ++ [0]

/-- Serialization of a CREATE record (the `create` function, main.rs lines
247-267, encoding by `uhid_write` of the zero-initialized struct with the
named fields stored), laid out per the spec section 6 wire format. -/
def encode_create (name rd : List Nat)
    (rd_size bus vendor product version country : Nat) : List Nat :=
  u32_bytes uhid_event_type.LEGACY_CREATE.toU32 ++
  pad_to 128 name ++
  pad_to 64 [] ++
  pad_to 64 [] ++
  u16_bytes rd_size ++
  pad_to UHID_DATA_MAX rd ++
  u32_bytes bus ++
  u16_bytes vendor ++
  u16_bytes product ++
  u32_bytes version ++
  u32_bytes country

/-- The concrete CREATE record of `create` (main.rs lines 247-267): name
"test-uhid-device", descriptor RDESC with its length, bus BUS_USB (3,
modelled from the bindings), vendor 0x15d9, product 0x0a37, version 0,
country 0. -/
def create_record : List Nat :=
  encode_create device_name_bytes RDESC RDESC.length 3 0x15d9 0x0a37 0 0

/-- Serialization of the DESTROY record written by `destroy` (main.rs lines
269-276): the struct is zero-initialized and only the type tag is stored, so
the payload is all zero. -/
def encode_destroy : List Nat :=
  u32_bytes uhid_event_type.UHID_DESTROY.toU32 ++ List.replicate PAYLOAD_SIZE 0

/-- The five data bytes stored by `send_event` (main.rs lines 374-388):
report id 0x1, the button bit mask (bit 0 from `btn1_down`, bit 1 from
`btn2_down`, bit 2 from `btn3_down`, ored into the zeroed byte), then the
three deltas as unsigned bytes. -/
def send_event_data (input : InputEvent) : List Nat :=
  let d1 : Nat := 0
  let d1 := if input.btn1_down then d1 ||| 0x1 else d1
  let d1 := if input.btn2_down then d1 ||| 0x2 else d1
  let d1 := if input.btn3_down then d1 ||| 0x4 else d1
  [0x1, d1, i8_as_u8 input.abs_hor, i8_as_u8 input.abs_ver, i8_as_u8 input.wheel]

/-- Serialization of the legacy INPUT record written by `send_event`
(main.rs lines 368-392): tag, 16-bit size 5, the five data bytes, and the
rest of the zero-initialized struct. -/
def encode_input (input : InputEvent) : List Nat :=
  u32_bytes uhid_event_type.LEGACY_INPUT.toU32 ++
  u16_bytes 5 ++
  send_event_data input ++
  List.replicate (UHID_DATA_MAX - 5) 0 ++
  List.replicate (PAYLOAD_SIZE - (2 + UHID_DATA_MAX)) 0

/-! ## uhid_write (main.rs lines 227-245) -/

/-- Translation of `uhid_write`: the result of the single underlying
`file.write` call is passed in as `writeResult` (number of bytes written, or
the I/O error). A full-size write succeeds; a write of any other size is an
error; an underlying error is wrapped and returned. There is no retry: the
one write result decides the outcome. -/
def uhid_write (writeResult : Except String Nat) : Except String Unit :=
  match writeResult with
  | .ok bytes_written =>
      if bytes_written ≠ uhid_event_size then
        .error "Wrong size written to uhid"
      else
        .ok ()
  | .error err => .error ("Cannot write to uhid: " ++ err)

/-! ## handle_output (main.rs lines 282-302) -/

/-- Modelled from the spec: the numeric value of the OUTPUT report type
(`uhid_report_type::UHID_OUTPUT_REPORT` of the generated bindings, not in
the repository sources). -/
def UHID_OUTPUT_REPORT : Nat := 1

/-- The output payload of a received record (`ev.u.output`): report type,
16-bit size, and the data buffer (absent bytes of the fixed buffer read as
zero). -/
structure uhid_output_req where
  rtype : Nat
  size : Nat
  data : List Nat
deriving Repr, DecidableEq

/-- Translation of `handle_output`: returns the logged LED flag byte
(`data[1]`), or `none` when the record is ignored by one of the three early
returns — wrong report type, size other than 2, or report id other than
0x02. -/
def handle_output (ev_output : uhid_output_req) : Option Nat :=
  if ev_output.rtype ≠ UHID_OUTPUT_REPORT then none
  else if ev_output.size ≠ 2 then none
  else if ev_output.data.getD 0 0 ≠ 0x2 then none
  else some (ev_output.data.getD 1 0)

/-! ## handle_event (main.rs lines 304-330) -/

/-- A received event as `handle_event` reinterprets the read buffer: the
32-bit tag and the output payload view of the union. -/
structure RecvEvent where
  type_ : Nat
  output : uhid_output_req
deriving Repr, DecidableEq

/-- The ways `handle_event` can end: a panic from one of its two `.unwrap()`
calls, or a normal return (always `Ok(())`) carrying the log line and, for
UHID_OUTPUT, the result of `handle_output`. -/
inductive HandleEventOutcome where
  | panicked_read (e : String)
  | panicked_unwrap_none (tag : Nat)
  | normal (log : String) (led : Option Nat)
deriving Repr, DecidableEq

/-- Translation of `handle_event`: the result of the single fixed-size
`read_exact` is passed in as `readResult`. The source unwraps the read
result (line 313) and unwraps the decoded tag option (line 316), so both
failure points panic instead of returning an error; every successfully
decoded tag logs a line and returns `Ok(())`, with the wildcard arm logging
the raw tag of the known-but-unlisted kinds. -/
def handle_event (readResult : Except String RecvEvent) : HandleEventOutcome :=
  match readResult with
  | .error e => .panicked_read e
  | .ok ev =>
      match from_u32_to_maybe_uhid_event_type ev.type_ with
      | none => .panicked_unwrap_none ev.type_
      | some t =>
          match t with
          | .UHID_START => .normal "UHID_START from uhid-dev" none
          | .UHID_STOP => .normal "UHID_STOP from uhid-dev" none
          | .UHID_OPEN => .normal "UHID_OPEN from uhid-dev" none
          | .UHID_CLOSE => .normal "UHID_CLOSE from uhid-dev" none
          | .UHID_OUTPUT => .normal "UHID_OUTPUT from uhid-dev" (handle_output ev.output)
          | .LEGACY_OUTPUT_EV => .normal "UHID_OUTPUT_EV from uhid-dev" none
          | _ => .normal "Invalid event from uhid-dev" none

/-! ## keyboard (main.rs lines 394-454) -/

/-- What one `keyboard` call does: the state afterwards, the input events
written to the device channel by `send_event`, whether the invalid-input
line was logged, and the returned result. Device-channel writes are modelled
as succeeding. -/
structure KeyboardStep where
  newState : DeviceState
  written : List InputEvent
  loggedInvalid : Bool
  result : Except String Unit
deriving Repr

deriving instance DecidableEq for Except

deriving instance DecidableEq for KeyboardStep

/-- Translation of `keyboard`: one control byte is dispatched. Digits 1-3
(0x31-0x33) toggle a button and send a report built from the new state;
a/d (0x61/0x64) send a report with horizontal delta -20/20; w/s (0x77/0x73)
send vertical delta -20/20; r/f (0x72/0x66) send wheel delta +1 and -1; q (0x71)
returns the "Cancelled" error without touching state or channel; anything
else logs the invalid input and returns `Ok(())`. -/
def keyboard (c : Nat) (state : DeviceState) : KeyboardStep :=
  if c = 0x31 then
    let s := state.toggle_btn1
    ⟨s, [InputEvent.from_state s], false, .ok ()⟩
  else if c = 0x32 then
    let s := state.toggle_btn2
    ⟨s, [InputEvent.from_state s], false, .ok ()⟩
  else if c = 0x33 then
    let s := state.toggle_btn3
    ⟨s, [InputEvent.from_state s], false, .ok ()⟩
  else if c = 0x61 then
    ⟨state, [{ InputEvent.from_state state with abs_hor := -20 }], false, .ok ()⟩
  else if c = 0x64 then
    ⟨state, [{ InputEvent.from_state state with abs_hor := 20 }], false, .ok ()⟩
  else if c = 0x77 then
    ⟨state, [{ InputEvent.from_state state with abs_ver := -20 }], false, .ok ()⟩
  else if c = 0x73 then
    ⟨state, [{ InputEvent.from_state state with abs_ver := 20 }], false, .ok ()⟩
  else if c = 0x72 then
    ⟨state, [{ InputEvent.from_state state with wheel := 1 }], false, .ok ()⟩
  else if c = 0x66 then
    ⟨state, [{ InputEvent.from_state state with wheel := -1 }], false, .ok ()⟩
  else if c = 0x71 then
    ⟨state, [], false, .error "Cancelled"⟩
  else
    ⟨state, [], true, .ok ()⟩

/-! ## The event loop (main.rs lines 503-518) -/

/-- One readiness event delivered by the poll: a control byte on stdin, or
a read result on the device channel. -/
inductive LoopInput where
  | stdin (c : Nat)
  | device (r : Except String RecvEvent)

/-- A record written to the device channel after the loop starts. The loop
body can only write input reports (through `keyboard` calling `send_event`);
`destroyRec` would be the DESTROY record of the `destroy` call placed after
the loop. -/
inductive WrittenRecord where
  | inputRec (ev : InputEvent)
  | destroyRec
deriving Repr, DecidableEq

/-- How a run of the loop ends on a finite prefix of inputs: a panic (an
`.unwrap()` of an error inside the loop body aborts the process), or still
waiting in `poll` for more input. Both carry the records written so far. The
source loop has no break, so it never ends normally and the `destroy` call
after it is unreachable (the TODO at main.rs line 515). -/
inductive RunResult where
  | panicked (writes : List WrittenRecord)
  | waiting (writes : List WrittenRecord)
deriving Repr, DecidableEq

/-- Translation of the main loop (main.rs lines 503-513): each readiness
event dispatches to `keyboard(..).unwrap()` or `handle_event(..).unwrap()`;
an `Err` from `keyboard` (the quit path) or a panic inside `handle_event`
aborts the process without any further write. -/
def event_loop_run (state : DeviceState) (writes : List WrittenRecord) :
    List LoopInput → RunResult
  | [] => .waiting writes
  | .stdin c :: rest =>
      let step := keyboard c state
      let writes := writes ++ step.written.map .inputRec
      match step.result with
      | .error _ => .panicked writes
      | .ok () => event_loop_run step.newState writes rest
  | .device r :: rest =>
      match handle_event r with
      | .panicked_read _ => .panicked writes
      | .panicked_unwrap_none _ => .panicked writes
      | .normal _ _ => event_loop_run state writes rest

/-! ## Helper lemmas -/

theorem pad_to_length (n : Nat) (l : List Nat) : (pad_to n l).length = n := by
  simp [pad_to]
  omega

/-! ## Claim theorems -/

/-- C1: the claim says the input report built from a device state maps bits
0, 1, 2 of the first data byte to buttons 1, 2, 3, and that for a state with
only button 3 down bit 2 is set. The code does not: `InputEvent::from_state`
(main.rs line 219) copies `btn2_down` into `btn3_down`, so for the state
with only button 3 down the built event has no button flag at all and the
encoded data byte is 0, bit 2 clear. -/
theorem from_state_drops_btn3 :
    InputEvent.from_state ⟨false, false, true⟩ =
      { btn1_down := false, btn2_down := false, btn3_down := false,
        abs_hor := 0, abs_ver := 0, wheel := 0 } ∧
    send_event_data (InputEvent.from_state ⟨false, false, true⟩) =
      [0x1, 0x0, 0x0, 0x0, 0x0] ∧
    Nat.testBit ((send_event_data (InputEvent.from_state ⟨false, false, true⟩)).getD 1 0) 2
      = false := by
  refine ⟨rfl, by decide, by decide⟩

/-- C2: the claim says an event whose tag is outside the known set is
processed without failing or panicking, yielding a logged unknown-kind
result. The code panics: `handle_event` (main.rs line 316) calls `.unwrap()`
on `from_u32_to_maybe_uhid_event_type`, which is `None` for an unknown tag
such as 100, so processing aborts instead of logging. -/
theorem unknown_tag_panics :
    from_u32_to_maybe_uhid_event_type 100 = none ∧
    handle_event (.ok ⟨100, ⟨0, 0, []⟩⟩) = .panicked_unwrap_none 100 :=
  ⟨rfl, rfl⟩

/-- C3: the claim says that after the quit character q is read the loop
stops and a DESTROY record is written before termination. The code stops
the loop only by panicking (`keyboard(..).unwrap()` on the `Err` of the
quit path, main.rs line 508) and the `destroy` call after the loop is
unreachable (the TODO at main.rs line 515): the run that reads q terminates
with no record written at all, in particular no DESTROY record. -/
theorem quit_reaches_no_destroy :
    event_loop_run DeviceState.default [] [.stdin 0x71] = .panicked [] := by
  decide

/-- C4: the claim says a failed device-channel read is surfaced to the
caller as an error result. The code panics instead: `handle_event` calls
`read_exact(..).unwrap()` (main.rs line 313), so a read failure aborts the
process rather than producing the `Err` return its `io::Result` signature
promises. -/
theorem read_failure_panics :
    handle_event (.error "device read failed") = .panicked_read "device read failed" :=
  rfl

/-- C5: `uhid_write` returns an error precisely when the single underlying
write fails or transfers a byte count other than the full fixed record
size, and returns success exactly on a full-size write; the one write
result decides the outcome, with no retry. -/
theorem uhid_write_error_iff (r : Except String Nat) :
    ((∃ e, uhid_write r = .error e) ↔
      (∃ e, r = .error e) ∨ (∃ n, r = .ok n ∧ n ≠ uhid_event_size)) ∧
    (uhid_write r = .ok () ↔ r = .ok uhid_event_size) := by
  cases r with
  | ok n =>
      by_cases h : n = uhid_event_size <;> simp [uhid_write, h]
  | error e => simp [uhid_write]

/-- C6: every encoded record variant (CREATE, DESTROY, INPUT) is exactly
EVENT_SIZE bytes long; the bytes of the INPUT record past the tag, the size
field and the five used data bytes are all zero; and the DESTROY record is
the tag followed by an all-zero payload of EVENT_SIZE - 4 bytes. -/
theorem encode_fixed_size :
    (∀ input : InputEvent, (encode_input input).length = EVENT_SIZE) ∧
    (∀ (name rd : List Nat) (rd_size bus vendor product version country : Nat),
      (encode_create name rd rd_size bus vendor product version country).length
        = EVENT_SIZE) ∧
    create_record.length = EVENT_SIZE ∧
    encode_destroy.length = EVENT_SIZE ∧
    encode_destroy = u32_bytes uhid_event_type.UHID_DESTROY.toU32 ++
      List.replicate (EVENT_SIZE - 4) 0 ∧
    (∀ input : InputEvent,
      (encode_input input).drop 11 = List.replicate (EVENT_SIZE - 11) 0) := by
  have hcreate : ∀ (name rd : List Nat)
      (rd_size bus vendor product version country : Nat),
      (encode_create name rd rd_size bus vendor product version country).length
        = EVENT_SIZE := by
    intro name rd rd_size bus vendor product version country
    simp [encode_create, u32_bytes, u16_bytes, pad_to_length, EVENT_SIZE,
      PAYLOAD_SIZE, UHID_DATA_MAX]
  have hinput_split : ∀ input : InputEvent,
      encode_input input =
        (u32_bytes uhid_event_type.LEGACY_INPUT.toU32 ++ u16_bytes 5 ++
          send_event_data input) ++ List.replicate (EVENT_SIZE - 11) 0 := by
    intro input
    show _ ++ _ ++ _ ++ _ ++ _ = _
    rw [List.append_assoc (u32_bytes uhid_event_type.LEGACY_INPUT.toU32 ++ u16_bytes 5
      ++ send_event_data input), ← List.replicate_add]
    simp [List.append_assoc]
    norm_num [UHID_DATA_MAX, PAYLOAD_SIZE, EVENT_SIZE]
  have hhead_len : ∀ input : InputEvent,
      (u32_bytes uhid_event_type.LEGACY_INPUT.toU32 ++ u16_bytes 5 ++
        send_event_data input).length = 11 := by
    intro input
    simp [u32_bytes, u16_bytes, send_event_data]
  refine ⟨?_, hcreate, hcreate _ _ _ _ _ _ _ _, ?_, ?_, ?_⟩
  · intro input
    rw [hinput_split input]
    simp [u32_bytes, u16_bytes, send_event_data]
    norm_num [PAYLOAD_SIZE, EVENT_SIZE]
  · simp [encode_destroy, u32_bytes, EVENT_SIZE]
    omega
  · simp [encode_destroy, EVENT_SIZE]
  · intro input
    rw [hinput_split input, ← hhead_len input, List.drop_left]

/-- C7: `handle_output` logs an LED flag byte exactly when the received
OUTPUT record has report type UHID_OUTPUT_REPORT, size 2 and report id byte
0x02, and the byte it logs is the second data byte; a record failing any of
the three checks is ignored. -/
theorem handle_output_led_iff (p : uhid_output_req) :
    ((handle_output p).isSome ↔
      p.rtype = UHID_OUTPUT_REPORT ∧ p.size = 2 ∧ p.data.getD 0 0 = 0x2) ∧
    (∀ flags, handle_output p = some flags → flags = p.data.getD 1 0) := by
  unfold handle_output
  split_ifs with h1 h2 h3 <;> simp_all

/-- C8: the control map of `keyboard` — the digits 1, 2, 3 toggle the
corresponding button and submit a report built from the new state; a and d
submit a single report with horizontal delta -20 and 20 and zero vertical
and wheel deltas; w and s likewise with vertical delta -20 and 20; r and f
with wheel delta 1 and -1; and every byte outside the ten commands logs the
invalid-input line, writes nothing, leaves the state unchanged and returns
success. -/
theorem keyboard_command_map (c : Nat) (s : DeviceState) :
    keyboard 0x31 s =
      ⟨s.toggle_btn1, [InputEvent.from_state s.toggle_btn1], false, .ok ()⟩ ∧
    keyboard 0x32 s =
      ⟨s.toggle_btn2, [InputEvent.from_state s.toggle_btn2], false, .ok ()⟩ ∧
    keyboard 0x33 s =
      ⟨s.toggle_btn3, [InputEvent.from_state s.toggle_btn3], false, .ok ()⟩ ∧
    keyboard 0x61 s =
      ⟨s, [⟨s.btn1_down, s.btn2_down, s.btn2_down, -20, 0, 0⟩], false, .ok ()⟩ ∧
    keyboard 0x64 s =
      ⟨s, [⟨s.btn1_down, s.btn2_down, s.btn2_down, 20, 0, 0⟩], false, .ok ()⟩ ∧
    keyboard 0x77 s =
      ⟨s, [⟨s.btn1_down, s.btn2_down, s.btn2_down, 0, -20, 0⟩], false, .ok ()⟩ ∧
    keyboard 0x73 s =
      ⟨s, [⟨s.btn1_down, s.btn2_down, s.btn2_down, 0, 20, 0⟩], false, .ok ()⟩ ∧
    keyboard 0x72 s =
      ⟨s, [⟨s.btn1_down, s.btn2_down, s.btn2_down, 0, 0, 1⟩], false, .ok ()⟩ ∧
    keyboard 0x66 s =
      ⟨s, [⟨s.btn1_down, s.btn2_down, s.btn2_down, 0, 0, -1⟩], false, .ok ()⟩ ∧
    (c ∉ [0x31, 0x32, 0x33, 0x61, 0x64, 0x77, 0x73, 0x72, 0x66, 0x71] →
      keyboard c s = ⟨s, [], true, .ok ()⟩) := by
  refine ⟨rfl, rfl, rfl, rfl, rfl, rfl, rfl, rfl, rfl, ?_⟩
  intro h
  simp only [List.mem_cons, List.not_mem_nil, or_false, not_or] at h
  obtain ⟨h1, h2, h3, h4, h5, h6, h7, h8, h9, h10⟩ := h
  simp [keyboard, h1, h2, h3, h4, h5, h6, h7, h8, h9, h10]

/-- C9: every input report built directly from the persistent device state
has all three deltas zero — `InputEvent::from_state` fills the three delta
fields with 0, and the persistent `DeviceState` stores no deltas at all, so
motion is one-shot: a report not produced by a fresh motion command carries
zero deltas. -/
theorem from_state_zero_deltas (s : DeviceState) :
    (InputEvent.from_state s).abs_hor = 0 ∧
    (InputEvent.from_state s).abs_ver = 0 ∧
    (InputEvent.from_state s).wheel = 0 :=
  ⟨rfl, rfl, rfl⟩

/-- C10: on the quit byte q, `keyboard` returns the "Cancelled" error,
writes no record to the device channel, and leaves the device state — all
three button flags — exactly as it was. -/
theorem quit_no_write_no_state_change (s : DeviceState) :
    keyboard 0x71 s = ⟨s, [], false, .error "Cancelled"⟩ :=
  rfl
